import Mathlib

/-!
Verification of the stock-bot market-data and technical-analysis core.

The definitions below are a shallow embedding of `src/modules/technical.py`,
`src/modules/market_data.py` and `src/modules/nse_data.py`.  Machine floats
are modelled by `ℚ`; Python `round(x, n)` (banker's rounding at the n-th
decimal) is modelled by `pyRound`; pandas `ewm(..., adjust=False).mean()`
is the first-value-seeded exponential recursion `ewmGo`; a pandas DataFrame
is a `Frame`: an ordered list of bars plus flags recording whether the
`Close` / `Volume` columns are present (a missing column makes the Python
body raise `KeyError`, which `analyse` catches).
-/

/-- Round-half-to-even to an integer, as Python's builtin `round` does. -/
def roundHalfEven (q : ℚ) : ℤ :=
  let f : ℤ := ⌊q⌋
  let r : ℚ := q - f
  if r < 1/2 then f
  else if 1/2 < r then f + 1
  else if f % 2 = 0 then f else f + 1

/-- Python `round(q, n)`: banker's rounding at the n-th decimal place. -/
def pyRound (n : ℕ) (q : ℚ) : ℚ :=
  (roundHalfEven (q * 10 ^ n) : ℚ) / 10 ^ n

/-- `series.iloc[-1]` on a list (0 when empty; only used on non-empty lists). -/
def lastD (xs : List ℚ) : ℚ := xs.getLastD 0

/-- `series.iloc[-2]`: the second-to-last element. -/
def penult (xs : List ℚ) : ℚ := lastD xs.dropLast

/-- `series.iloc[-k:]`: the last `k` elements (the whole list when shorter). -/
def lastK (k : ℕ) (xs : List ℚ) : List ℚ := xs.drop (xs.length - k)

/-- Tail of `ewm(adjust=False)`: fold the exponential recursion over `xs`
starting from accumulator `a`, emitting every intermediate value. -/
def ewmGo (α a : ℚ) : List ℚ → List ℚ
  | [] => [a]
  | y :: ys => a :: ewmGo α ((1 - α) * a + α * y) ys

/-- `series.ewm(alpha, adjust=False).mean()`: seeded by the first value. -/
def ewmSeries (α : ℚ) : List ℚ → List ℚ
  | [] => []
  | x :: xs => ewmGo α x xs

/-- Last value of the `adjust=False` exponential mean; `none` on empty input.
Models the last entry of the pandas `ewm` output (NaN on an empty series). -/
def ewmLast? (α : ℚ) : List ℚ → Option ℚ
  | [] => none
  | x :: xs => some (xs.foldl (fun a y => (1 - α) * a + α * y) x)

-- ── config.settings constants ─────────────────────────────────────────────

def VOLUME_SPIKE_MULTIPLIER : ℚ := 3/2

def RSI_OVERSOLD : ℚ := 40

def RSI_BULLISH_ZONE : ℚ := 50

def RSI_OVERBOUGHT : ℚ := 70

def EMA_SHORT : ℕ := 20

def EMA_LONG : ℕ := 50

def MACD_FAST : ℕ := 12

def MACD_SLOW : ℕ := 26

def MACD_SIGNAL : ℕ := 9

-- ── Data model ────────────────────────────────────────────────────────────

/-- One daily OHLCV bar. -/
structure Bar where
  open_ : ℚ
  high : ℚ
  low : ℚ
  close : ℚ
  volume : ℚ
deriving DecidableEq, Repr

/-- A pandas DataFrame as consumed by `TechnicalAnalyzer.analyse`: the rows,
plus whether the `Close` / `Volume` columns are present.  Accessing a missing
column raises `KeyError` in Python; `analyse` models that exception path. -/
structure Frame where
  bars : List Bar
  hasClose : Bool := true
  hasVolume : Bool := true
deriving DecidableEq, Repr

def closesOf (bars : List Bar) : List ℚ := bars.map Bar.close

def volsOf (bars : List Bar) : List ℚ := bars.map Bar.volume

-- ── technical.py: indicator helpers ───────────────────────────────────────

/-- `_ema(series, length)`: `ewm(span=length, adjust=False).mean()`, whose
smoothing factor is `2/(length+1)`; we keep only the last value. -/
def emaLast (length : ℕ) (xs : List ℚ) : ℚ :=
  (ewmLast? (2 / ((length : ℚ) + 1)) xs).getD 0

/-- `series.diff()` without its leading NaN: consecutive deltas. -/
def diffs (closes : List ℚ) : List ℚ :=
  List.zipWith (fun p n => n - p) closes (closes.drop 1)

/-- Last value of `gain.ewm(alpha=1/14, adjust=False).mean()` in `_rsi`. -/
def avgGainLast (closes : List ℚ) : Option ℚ :=
  ewmLast? (1/14) ((diffs closes).map (fun d => max d 0))

/-- Last value of `loss.ewm(alpha=1/14, adjust=False).mean()` in `_rsi`. -/
def avgLossLast (closes : List ℚ) : Option ℚ :=
  ewmLast? (1/14) ((diffs closes).map (fun d => max (-d) 0))

/-- Last value of `_rsi(series, 14)`.  `avg_loss.replace(0, nan)` makes the
quotient NaN when the average loss is zero, so the value is missing exactly
when `avgLossLast = 0` (the caller's `np.isfinite` check then rejects it). -/
def rsiLast (closes : List ℚ) : Option ℚ :=
  match avgGainLast closes, avgLossLast closes with
  | some g, some l => if l = 0 then none else some (100 - 100 / (1 + g / l))
  | _, _ => none

/-- The `sig.rsi` stored by `analyse`: the last RSI value rounded to one
decimal, missing when the RSI is NaN. -/
def rsiField (closes : List ℚ) : Option ℚ := (rsiLast closes).map (pyRound 1)

/-- `_macd` followed by the `macd_line.iloc[-1] > signal_line.iloc[-1]` test. -/
def macdBull (closes : List ℚ) : Bool :=
  let macdLine := List.zipWith (fun a b => a - b)
    (ewmSeries (2 / ((MACD_FAST : ℚ) + 1)) closes)
    (ewmSeries (2 / ((MACD_SLOW : ℚ) + 1)) closes)
  let signalLine := ewmSeries (2 / ((MACD_SIGNAL : ℚ) + 1)) macdLine
  decide (lastD macdLine > lastD signalLine)

/-- `close.iloc[-1] > ema20.iloc[-1]`. -/
def aboveEmaShort (closes : List ℚ) : Bool :=
  decide (lastD closes > emaLast EMA_SHORT closes)

/-- `close.iloc[-1] > ema50.iloc[-1]`. -/
def aboveEmaLong (closes : List ℚ) : Bool :=
  decide (lastD closes > emaLast EMA_LONG closes)

/-- `volume.iloc[-20:].mean()`. -/
def meanLast20 (xs : List ℚ) : ℚ :=
  (lastK 20 xs).sum / ((lastK 20 xs).length : ℚ)

/-- Python truthiness of an `Optional[float]`: `None` and `0.0` are falsy. -/
def pyTruthy : Option ℚ → Bool
  | none => false
  | some r => decide (r ≠ 0)

/-- `sig.volume_ratio`: `round(cur_vol/avg_vol, 2) if avg_vol else None`,
guarded by `len(volume) >= 20`. -/
def volRatio (vols : List ℚ) : Option ℚ :=
  if 20 ≤ vols.length then
    if meanLast20 vols = 0 then none
    else some (pyRound 2 (lastD vols / meanLast20 vols))
  else none

/-- `sig.volume_spike = bool(sig.volume_ratio and sig.volume_ratio >= 1.5)`. -/
def volSpike (vols : List ℚ) : Bool :=
  if 20 ≤ vols.length then
    pyTruthy (volRatio vols) && decide ((volRatio vols).getD 0 ≥ VOLUME_SPIKE_MULTIPLIER)
  else false

/-- `sig.change_pct`: set only when at least two closes are available. -/
def changeOf (closes : List ℚ) : Option ℚ :=
  if 2 ≤ closes.length then
    some (pyRound 2 ((lastD closes - penult closes) / penult closes * 100))
  else none

-- ── technical.py: StockSignal and trade levels ────────────────────────────

/-- The `StockSignal` dataclass with its field defaults. -/
structure StockSignal where
  ticker : String
  cmp : Option ℚ := none
  change_pct : Option ℚ := none
  rsi : Option ℚ := none
  macd_bullish : Bool := false
  above_ema20 : Bool := false
  above_ema50 : Bool := false
  volume_spike : Bool := false
  volume_ratio : Option ℚ := none
  pattern : String := "No pattern"
  overall_signal : String := "NEUTRAL"
  entry_zone : String := "—"
  stop_loss : String := "—"
  st_target : String := "—"
  mt_target : String := "—"
  rr_ratio : String := "—"
  signal_emoji : String := "⚪"
  notes : List String := []
  error : Option String := none
deriving DecidableEq, Repr

/-- One entry of the hardcoded `TRADE_LEVELS` table. -/
structure TradeLevel where
  entry : String
  sl : String
  st_target : String
  mt_target : String
  rr : String
  pattern : String
deriving DecidableEq, Repr

/-- The hardcoded `TRADE_LEVELS` dict. -/
def TRADE_LEVELS (t : String) : Option TradeLevel :=
  if t = "NATCOPHARM" then
    some ⟨"₹845–880", "₹720", "₹940–960", "₹1,060–1,150", "1:2.5", "Double Bottom"⟩
  else if t = "WELSPUNLIV" then
    some ⟨"₹132–140", "₹118", "₹155–160", "₹175–185", "1:2.5", "Double Bottom + Gap Breakout"⟩
  else if t = "MCX" then
    some ⟨"₹8,400–8,700", "₹7,900", "₹9,200–9,500", "₹10,200–10,800", "1:2.5", "Double Bottom + Marubozu"⟩
  else if t = "AUBANK" then
    some ⟨"₹990–1,020", "₹960", "₹1,060–1,090", "₹1,180–1,250", "1:2.5", "Symmetrical Triangle Breakout"⟩
  else if t = "GRAPHITE" then
    some ⟨"₹430–480", "₹390", "₹550–590", "₹670–720", "1:2.8", "Rounded Bottom"⟩
  else none

/-- The signal `analyse` has built just after copying the trade levels
(lines 126–135): all other fields still at their dataclass defaults. -/
def withLevels (t : String) : StockSignal :=
  { ticker := t
    entry_zone := ((TRADE_LEVELS t).map TradeLevel.entry).getD "—"
    stop_loss := ((TRADE_LEVELS t).map TradeLevel.sl).getD "—"
    st_target := ((TRADE_LEVELS t).map TradeLevel.st_target).getD "—"
    mt_target := ((TRADE_LEVELS t).map TradeLevel.mt_target).getD "—"
    rr_ratio := ((TRADE_LEVELS t).map TradeLevel.rr).getD "—"
    pattern := ((TRADE_LEVELS t).map TradeLevel.pattern).getD "—" }

-- ── technical.py: composite scoring, heuristic, notes ─────────────────────

/-- Count of bullish votes (`bullish_count` in the source). -/
def votes (mb a20 a50 spike : Bool) (rsi : Option ℚ) : ℕ :=
  mb.toNat + a20.toNat + a50.toNat + spike.toNat +
    (match rsi with
     | some r => if RSI_BULLISH_ZONE ≤ r ∧ r < RSI_OVERBOUGHT then 1 else 0
     | none => 0)

/-- The `bullish_count → (overall_signal, signal_emoji)` ladder. -/
def scoreOf (n : ℕ) : String × String :=
  if 4 ≤ n then ("STRONG BUY", "🟢")
  else if n = 3 then ("BUY", "🟢")
  else if n = 2 then ("WATCH", "🟡")
  else if n = 1 then ("NEUTRAL", "⚪")
  else ("CAUTION", "🔴")

/-- The limited-data `change_pct → (overall_signal, signal_emoji)` ladder. -/
def heuristicOf (c : Option ℚ) : String × String :=
  match c with
  | some v =>
    if v > 2 then ("WATCH", "🟡")
    else if v > 0 then ("NEUTRAL", "⚪")
    else if v > -2 then ("NEUTRAL", "⚪")
    else ("CAUTION", "🔴")
  | none => ("NEUTRAL", "⚪")

def oversoldNote : String := "RSI oversold — potential bounce zone"

def overboughtNote : String := "RSI overbought — partial profit booking advisable"

/-- The f-string `f"Volume spike \x7bsig.volume_ratio\x7d× avg — institutional activity"`;
`str` of the optional float is modelled by `toString`. -/
def volumeSpikeNote (r : Option ℚ) : String :=
  "Volume spike " ++ (match r with | none => "None" | some q => toString q) ++
    "× avg — institutional activity"

def reclaimNote : String := "50 EMA reclaim attempt — key resistance"

/-- The notes block (lines 245–253).  Python evaluates `if sig.rsi and ...`,
so an RSI of exactly `0.0` is falsy and appends no RSI note. -/
def notesFor (rsi : Option ℚ) (spike : Bool) (ratio : Option ℚ) (a20 a50 : Bool) :
    List String :=
  (if pyTruthy rsi && decide (rsi.getD 0 < RSI_OVERSOLD) then [oversoldNote] else []) ++
  (if pyTruthy rsi && decide (rsi.getD 0 > RSI_OVERBOUGHT) then [overboughtNote] else []) ++
  (if spike then [volumeSpikeNote ratio] else []) ++
  (if !a50 && a20 then [reclaimNote] else [])

/-- The `len(close) >= 30` branch of the `try` body: full indicator suite,
composite scoring, and notes. -/
def fullSig (sig0 : StockSignal) (bars : List Bar) : StockSignal :=
  { sig0 with
    cmp := some (pyRound 2 (lastD (closesOf bars)))
    change_pct := changeOf (closesOf bars)
    rsi := rsiField (closesOf bars)
    macd_bullish := macdBull (closesOf bars)
    above_ema20 := aboveEmaShort (closesOf bars)
    above_ema50 := aboveEmaLong (closesOf bars)
    volume_spike := volSpike (volsOf bars)
    volume_ratio := volRatio (volsOf bars)
    overall_signal := (scoreOf (votes (macdBull (closesOf bars))
      (aboveEmaShort (closesOf bars)) (aboveEmaLong (closesOf bars))
      (volSpike (volsOf bars)) (rsiField (closesOf bars)))).1
    signal_emoji := (scoreOf (votes (macdBull (closesOf bars))
      (aboveEmaShort (closesOf bars)) (aboveEmaLong (closesOf bars))
      (volSpike (volsOf bars)) (rsiField (closesOf bars)))).2
    notes := sig0.notes ++ notesFor (rsiField (closesOf bars))
      (volSpike (volsOf bars)) (volRatio (volsOf bars))
      (aboveEmaShort (closesOf bars)) (aboveEmaLong (closesOf bars)) }

/-- The `len(close) < 30` branch of the `try` body: price action only, the
"Limited data" note, the change-percent heuristic, then the notes block
(which appends nothing since every indicator is at its default). -/
def limitedSig (sig0 : StockSignal) (bars : List Bar) : StockSignal :=
  { sig0 with
    cmp := some (pyRound 2 (lastD (closesOf bars)))
    change_pct := changeOf (closesOf bars)
    overall_signal := (heuristicOf (changeOf (closesOf bars))).1
    signal_emoji := (heuristicOf (changeOf (closesOf bars))).2
    notes := (sig0.notes ++ ["Limited data: Only current price available"]) ++
      notesFor none false none false false }

/-- The `try` body of `analyse` on a frame whose columns are present. -/
def analyseBody (sig0 : StockSignal) (bars : List Bar) : StockSignal :=
  if 30 ≤ bars.length then fullSig sig0 bars else limitedSig sig0 bars

/-- `TechnicalAnalyzer.analyse`.  Trade levels are copied first; an empty
frame short-circuits to the NO DATA signal; a missing `Close`/`Volume`
column raises `KeyError` at the top of the `try` block, which the
`except Exception` handler turns into `sig.error = str(e)` while leaving
every other field as it was; otherwise the body runs without exception. -/
def analyse (t : String) (f : Frame) : StockSignal :=
  let sig0 := withLevels t
  if f.bars.isEmpty then
    { sig0 with error := some "Insufficient data"
                overall_signal := "NO DATA"
                signal_emoji := "❓" }
  else if f.hasClose = false then { sig0 with error := some "'Close'" }
  else if f.hasVolume = false then { sig0 with error := some "'Volume'" }
  else analyseBody sig0 f.bars

-- ── market_data.py: provider fallback ─────────────────────────────────────

/-- Outcome of one provider attempt: a series of bars, or a raised error. -/
def ProviderResult : Type := Except String (List Bar)

/-- `MarketDataFetcher._fetch_ohlcv`: try the NSE provider, return its frame
when non-empty; on exception or empty frame fall back to yfinance, return
its frame when non-empty; otherwise return the empty frame.  Exceptions of
either provider are caught and logged, never re-raised (the return type is
a plain series, not an exceptional one). -/
def fetchOhlcv (nse yfin : Except String (List Bar)) : List Bar :=
  match nse with
  | .ok s =>
    if s.isEmpty then
      match yfin with
      | .ok t => if t.isEmpty then [] else t
      | .error _ => []
    else s
  | .error _ =>
    match yfin with
    | .ok t => if t.isEmpty then [] else t
    | .error _ => []

/-- A provider attempt that raised or produced an empty frame. -/
def failedOrEmpty : Except String (List Bar) → Prop
  | .ok s => s = []
  | .error _ => True

-- ── market_data.py / nse_data.py: index summary ───────────────────────────

/-- One `{price, change_pct, trend}` index snapshot. -/
structure IdxSnap where
  price : Option ℚ
  change_pct : Option ℚ
  trend : String
deriving DecidableEq, Repr

/-- The null snapshot produced on total failure. -/
def nullSnap : IdxSnap := ⟨none, none, "—"⟩

/-- The `INDICES` table from `config/settings.py` (display name, ticker). -/
def INDICES : List (String × String) :=
  [("NIFTY 50", "^NSEI"),
   ("NIFTY MIDCAP 150", "NIFTY_MID_SELECT.NS"),
   ("NIFTY SMALLCAP 250", "^CNXSC"),
   ("NIFTY BANK", "^NSEBANK")]

/-- Calling `NSEDataFetcher.get_index_data` with a list of positional
arguments.  Its definition is
`def get_index_data(self, index_display_name, yf_ticker)` — two required
positional parameters — so Python binds the body only when exactly two
arguments are supplied and raises `TypeError` otherwise.  The body itself is
abstracted as `body` since every behaviour of interest happens before it. -/
def callIndexData (body : String → String → IdxSnap) (args : List String) :
    Except String IdxSnap :=
  match args with
  | [a, b] => .ok (body a b)
  | _ => .error "TypeError: get_index_data() missing 1 required positional argument"

/-- The yfinance fallback branch of `_fetch_indices` for one index: with at
least two closes it builds the snapshot from the last two, else (or on an
exception) it stores the null snapshot. -/
def yfIndexFallback : Except String (List ℚ) → IdxSnap
  | .error _ => nullSnap
  | .ok closes =>
    if 2 ≤ closes.length then
      ⟨some (pyRound 2 (lastD closes)),
       some (pyRound 2 ((lastD closes - penult closes) / penult closes * 100)),
       if (lastD closes - penult closes) / penult closes * 100 ≥ 0 then "▲" else "▼"⟩
    else nullSnap

/-- One iteration of the loop in `_fetch_indices`: the NSE attempt calls
`get_index_data(ticker)` — a single argument — inside `try/except`; on
success with a non-None price that snapshot is kept, otherwise the yfinance
fallback runs. -/
def fetchIndexEntry (body : String → String → IdxSnap) (ticker : String)
    (yf : Except String (List ℚ)) : IdxSnap :=
  match callIndexData body [ticker] with
  | .ok d => if d.price.isSome then d else yfIndexFallback yf
  | .error _ => yfIndexFallback yf

/-- `MarketDataFetcher._fetch_indices`: one entry per tracked index. -/
def fetchIndices (body : String → String → IdxSnap)
    (yf : String → Except String (List ℚ)) : List (String × IdxSnap) :=
  INDICES.map (fun p => (p.1, fetchIndexEntry body p.2 (yf p.2)))

-- ── Definitions taken from the spec's words (for comparison) ──────────────

/-- Spec wording of the composite map: vote count to label (§4.2 of the
spec; claim C4). -/
def specScoreLabel (n : ℕ) : String :=
  if 4 ≤ n then "STRONG BUY"
  else if n = 3 then "BUY"
  else if n = 2 then "WATCH"
  else if n = 1 then "NEUTRAL"
  else "CAUTION"

/-- Spec wording: the emoji tag as a pure function of the overall signal. -/
def specEmoji (s : String) : String :=
  if s = "STRONG BUY" then "🟢"
  else if s = "BUY" then "🟢"
  else if s = "WATCH" then "🟡"
  else if s = "NEUTRAL" then "⚪"
  else if s = "CAUTION" then "🔴"
  else "❓"

/-- Spec wording: the bullish votes of a signal, counted from its own
indicator fields. -/
def specVotes (s : StockSignal) : ℕ :=
  s.macd_bullish.toNat + s.above_ema20.toNat + s.above_ema50.toNat +
    s.volume_spike.toNat +
    (match s.rsi with
     | some r => if 50 ≤ r ∧ r < 70 then 1 else 0
     | none => 0)

-- ── Concrete inputs for witnesses and counterexamples ─────────────────────

/-- A flat bar with the given close and volume. -/
def flatBar (c v : ℚ) : Bar := ⟨c, c, c, c, v⟩

/-- Thirty identical bars (close 1, volume 1). -/
def frameFlat30 : Frame := ⟨List.replicate 30 (flatBar 1 1), true, true⟩

/-- Two bars with closes 100 and 98: change_pct is exactly -2. -/
def frameDown2 : Frame := ⟨[flatBar 100 1, flatBar 98 1], true, true⟩

/-- A one-bar frame whose `Close` column is missing. -/
def frameNoClose : Frame := ⟨[flatBar 100 1], false, true⟩

/-- Thirty flat-price bars; the last twenty volumes are nineteen 3s and a
final 1, so the 20-bar mean volume is 29/10 and the exact volume ratio is
10/29 — not representable in two decimals. -/
def frameVol : Frame := ⟨List.replicate 29 (flatBar 1 3) ++ [flatBar 1 1], true, true⟩

/-- Thirty strictly decreasing closes (30 down to 1): every delta is a loss,
so the RSI is exactly 0. -/
def frameDrop : Frame :=
  ⟨[flatBar 30 1, flatBar 29 1, flatBar 28 1, flatBar 27 1, flatBar 26 1,
    flatBar 25 1, flatBar 24 1, flatBar 23 1, flatBar 22 1, flatBar 21 1,
    flatBar 20 1, flatBar 19 1, flatBar 18 1, flatBar 17 1, flatBar 16 1,
    flatBar 15 1, flatBar 14 1, flatBar 13 1, flatBar 12 1, flatBar 11 1,
    flatBar 10 1, flatBar 9 1, flatBar 8 1, flatBar 7 1, flatBar 6 1,
    flatBar 5 1, flatBar 4 1, flatBar 3 1, flatBar 2 1, flatBar 1 1],
   true, true⟩

/-- Twenty-eight falling deltas then one gain: RSI lands strictly between 0
and 40.  Closes run 30, 29, …, 2, then 3. -/
def frameBounce : Frame :=
  ⟨[flatBar 30 1, flatBar 29 1, flatBar 28 1, flatBar 27 1, flatBar 26 1,
    flatBar 25 1, flatBar 24 1, flatBar 23 1, flatBar 22 1, flatBar 21 1,
    flatBar 20 1, flatBar 19 1, flatBar 18 1, flatBar 17 1, flatBar 16 1,
    flatBar 15 1, flatBar 14 1, flatBar 13 1, flatBar 12 1, flatBar 11 1,
    flatBar 10 1, flatBar 9 1, flatBar 8 1, flatBar 7 1, flatBar 6 1,
    flatBar 5 1, flatBar 4 1, flatBar 3 1, flatBar 2 1, flatBar 3 1],
   true, true⟩

/-- Thirty flat bars with a final volume of 10 against trailing 1s: the
volume ratio rounds to 6.9 and a spike fires. -/
def frameSpike : Frame := ⟨List.replicate 29 (flatBar 1 1) ++ [flatBar 1 10], true, true⟩

-- ── Shared lemmas ─────────────────────────────────────────────────────────

lemma analyse_ok (t : String) (f : Frame) (hb : f.bars ≠ [])
    (hc : f.hasClose = true) (hv : f.hasVolume = true) :
    analyse t f = analyseBody (withLevels t) f.bars := by
  simp [analyse, hc, hv, List.isEmpty_iff, hb]

lemma analyse_full (sig0 : StockSignal) (bars : List Bar)
    (h30 : 30 ≤ bars.length) :
    analyseBody sig0 bars = fullSig sig0 bars := by
  simp [analyseBody, h30]

lemma analyse_limited (sig0 : StockSignal) (bars : List Bar)
    (h30 : ¬ 30 ≤ bars.length) :
    analyseBody sig0 bars = limitedSig sig0 bars := by
  simp [analyseBody, h30]

lemma analyseBody_error (sig0 : StockSignal) (bars : List Bar) :
    (analyseBody sig0 bars).error = sig0.error := by
  unfold analyseBody fullSig limitedSig
  split <;> rfl

lemma scoreOf_fst_ne_nodata (n : ℕ) : (scoreOf n).1 ≠ "NO DATA" := by
  unfold scoreOf
  split_ifs <;> decide

lemma heuristicOf_fst_ne_nodata (c : Option ℚ) :
    (heuristicOf c).1 ≠ "NO DATA" := by
  cases c with
  | none => decide
  | some v =>
    show (if v > 2 then ("WATCH", "🟡")
      else if v > 0 then ("NEUTRAL", "⚪")
      else if v > -2 then ("NEUTRAL", "⚪")
      else ("CAUTION", "🔴")).1 ≠ "NO DATA"
    split_ifs <;> decide

lemma analyseBody_overall_ne_nodata (sig0 : StockSignal) (bars : List Bar) :
    (analyseBody sig0 bars).overall_signal ≠ "NO DATA" := by
  unfold analyseBody fullSig limitedSig
  split
  · exact scoreOf_fst_ne_nodata _
  · exact heuristicOf_fst_ne_nodata _

lemma scoreOf_fst (n : ℕ) : (scoreOf n).1 = specScoreLabel n := by
  unfold scoreOf specScoreLabel
  split_ifs <;> rfl

lemma scoreOf_snd (n : ℕ) : (scoreOf n).2 = specEmoji (scoreOf n).1 := by
  unfold scoreOf
  split_ifs <;> decide

lemma oversold_mem_notesFor (r : ℚ) (hr0 : r ≠ 0) (hr : r < 40)
    (spike : Bool) (ratio : Option ℚ) (a20 a50 : Bool) :
    oversoldNote ∈ notesFor (some r) spike ratio a20 a50 := by
  simp [notesFor, pyTruthy, hr0, hr, RSI_OVERSOLD]

lemma overbought_mem_notesFor (r : ℚ) (hr : 70 < r)
    (spike : Bool) (ratio : Option ℚ) (a20 a50 : Bool) :
    overboughtNote ∈ notesFor (some r) spike ratio a20 a50 := by
  have hr0 : r ≠ 0 := by intro h; rw [h] at hr; norm_num at hr
  simp [notesFor, pyTruthy, hr0, hr, RSI_OVERBOUGHT]

lemma spikeNote_mem_notesFor (rsi : Option ℚ) (ratio : Option ℚ) (a20 a50 : Bool) :
    volumeSpikeNote ratio ∈ notesFor rsi true ratio a20 a50 := by
  simp [notesFor]

lemma reclaim_mem_notesFor (rsi : Option ℚ) (spike : Bool) (ratio : Option ℚ) :
    reclaimNote ∈ notesFor rsi spike ratio true false := by
  simp [notesFor]

-- ── Claim theorems ────────────────────────────────────────────────────────

/-- C1: `_fetch_ohlcv` never raises to its caller (its result type is a
plain series, every provider error being consumed by a `catch` branch); it
tries NSE then yfinance in that fixed order, stops at the first provider
returning a non-empty series, and returns the empty series when every
provider fails or returns empty. -/
theorem fetchOhlcv_fallback_spec (nse yfin : Except String (List Bar)) :
    (∀ s, nse = .ok s → s ≠ [] → fetchOhlcv nse yfin = s) ∧
    (failedOrEmpty nse → ∀ u, yfin = .ok u → u ≠ [] → fetchOhlcv nse yfin = u) ∧
    (failedOrEmpty nse → failedOrEmpty yfin → fetchOhlcv nse yfin = []) := by
  refine ⟨?_, ?_, ?_⟩
  · intro s hs hne
    subst hs
    simp [fetchOhlcv, List.isEmpty_iff, hne]
  · intro hfail u hu hne
    subst hu
    cases nse with
    | ok s =>
      have hs : s = [] := hfail
      subst hs
      simp [fetchOhlcv, List.isEmpty_iff, hne]
    | error e => simp [fetchOhlcv, List.isEmpty_iff, hne]
  · intro hn hy
    cases nse with
    | ok s =>
      have hs : s = [] := hn
      subst hs
      cases yfin with
      | ok u =>
        have hu : u = [] := hy
        subst hu
        simp [fetchOhlcv]
      | error e => simp [fetchOhlcv]
    | error e =>
      cases yfin with
      | ok u =>
        have hu : u = [] := hy
        subst hu
        simp [fetchOhlcv]
      | error e2 => simp [fetchOhlcv]

/-- Witness for C1: with the NSE provider raising and yfinance returning one
bar, the fetch returns that bar. -/
theorem fetchOhlcv_fallback_spec_witness :
    fetchOhlcv (.error "boom") (.ok [flatBar 100 5]) = [flatBar 100 5] :=
  (fetchOhlcv_fallback_spec (.error "boom") (.ok [flatBar 100 5])).2.1
    trivial [flatBar 100 5] rfl (by decide)

/-- Counterexample for C6: the primary provider raises on its attempt and
the fallback provider answers with a (two-bar) series, yet the result is not
a length-1 synthesized series — `_fetch_ohlcv` has no single-quote
synthesis path at all. -/
theorem fetchOhlcv_no_synthesis_cex :
    ¬ (fetchOhlcv (.error "primary down")
        (.ok [flatBar 100 5, flatBar 101 6])).length = 1 := by
  decide

/-- C6 as amended: when the primary provider fails and the fallback returns
a non-empty series, `_fetch_ohlcv` returns the fallback's series unchanged —
no one-bar open/high/low synthesis from a quote is performed. -/
theorem fetchOhlcv_fallback_passthrough (e : String) (u : List Bar)
    (h : u ≠ []) : fetchOhlcv (.error e) (.ok u) = u := by
  simp [fetchOhlcv, List.isEmpty_iff, h]

/-- Witness for the amended C6. -/
theorem fetchOhlcv_fallback_passthrough_witness :
    fetchOhlcv (.error "primary down") (.ok [flatBar 100 5, flatBar 101 6]) =
      [flatBar 100 5, flatBar 101 6] :=
  fetchOhlcv_fallback_passthrough "primary down"
    [flatBar 100 5, flatBar 101 6] (by decide)

/-- C10: the NSE attempt in `_fetch_indices` passes a single argument to
`get_index_data`, whose definition requires two, so the call raises
`TypeError` for every ticker (first conjunct); therefore the returned
dictionary is exactly what the yfinance fallback produces for each index —
a computed snapshot or the null snapshot — independently of the NSE body
(second and third conjuncts). -/
theorem fetchIndices_nse_path_dead (body bodyB : String → String → IdxSnap)
    (yf : String → Except String (List ℚ)) :
    (∀ ticker, callIndexData body [ticker] =
      .error "TypeError: get_index_data() missing 1 required positional argument") ∧
    fetchIndices body yf = INDICES.map (fun p => (p.1, yfIndexFallback (yf p.2))) ∧
    fetchIndices body yf = fetchIndices bodyB yf := by
  refine ⟨fun ticker => rfl, ?_, ?_⟩ <;>
    simp [fetchIndices, fetchIndexEntry, callIndexData]

/-- C3: `analyse` on an empty series returns the NO DATA signal with
`error = "Insufficient data"` and every indicator field at its default. -/
theorem analyse_empty_series (t : String) (f : Frame) (h : f.bars = []) :
    (analyse t f).error = some "Insufficient data" ∧
    (analyse t f).overall_signal = "NO DATA" ∧
    (analyse t f).signal_emoji = "❓" ∧
    (analyse t f).rsi = none ∧
    (analyse t f).macd_bullish = false ∧
    (analyse t f).above_ema20 = false ∧
    (analyse t f).above_ema50 = false ∧
    (analyse t f).volume_spike = false ∧
    (analyse t f).volume_ratio = none ∧
    (analyse t f).cmp = none ∧
    (analyse t f).change_pct = none := by
  refine ⟨?_, ?_, ?_, ?_, ?_, ?_, ?_, ?_, ?_, ?_, ?_⟩ <;>
    simp [analyse, h, withLevels]

/-- Witness for C3 at a concrete empty frame. -/
theorem analyse_empty_series_witness :
    (analyse "RELIANCE" ⟨[], true, true⟩).error = some "Insufficient data" ∧
    (analyse "RELIANCE" ⟨[], true, true⟩).overall_signal = "NO DATA" ∧
    (analyse "RELIANCE" ⟨[], true, true⟩).signal_emoji = "❓" ∧
    (analyse "RELIANCE" ⟨[], true, true⟩).rsi = none ∧
    (analyse "RELIANCE" ⟨[], true, true⟩).macd_bullish = false ∧
    (analyse "RELIANCE" ⟨[], true, true⟩).above_ema20 = false ∧
    (analyse "RELIANCE" ⟨[], true, true⟩).above_ema50 = false ∧
    (analyse "RELIANCE" ⟨[], true, true⟩).volume_spike = false ∧
    (analyse "RELIANCE" ⟨[], true, true⟩).volume_ratio = none ∧
    (analyse "RELIANCE" ⟨[], true, true⟩).cmp = none ∧
    (analyse "RELIANCE" ⟨[], true, true⟩).change_pct = none :=
  analyse_empty_series "RELIANCE" ⟨[], true, true⟩ rfl

/-- Counterexample for C2: on a non-empty frame whose `Close` column is
missing, the caught `KeyError` sets `error` while `overall_signal` keeps its
dataclass default `NEUTRAL` — so `error` set does not imply `NO DATA`. -/
theorem analyse_error_without_nodata_cex :
    (analyse "RELIANCE" frameNoClose).error = some "'Close'" ∧
    (analyse "RELIANCE" frameNoClose).overall_signal ≠ "NO DATA" ∧
    (analyse "RELIANCE" frameNoClose).overall_signal = "NEUTRAL" := by
  decide

/-- C2 as amended: on exception-free runs (both columns present) `error` is
set iff `overall_signal = NO DATA`, and whenever `error` is set all
indicator fields hold their defaults; when an exception is caught partway,
`error` is set but `overall_signal` keeps its previous (default) value. -/
theorem analyse_error_iff_nodata (t : String) (f : Frame)
    (hc : f.hasClose = true) (hv : f.hasVolume = true) :
    ((analyse t f).error.isSome = true ↔
      (analyse t f).overall_signal = "NO DATA") ∧
    ((analyse t f).error.isSome = true →
      (analyse t f).rsi = none ∧
      (analyse t f).macd_bullish = false ∧
      (analyse t f).above_ema20 = false ∧
      (analyse t f).above_ema50 = false ∧
      (analyse t f).volume_spike = false ∧
      (analyse t f).volume_ratio = none) := by
  by_cases hb : f.bars = []
  · refine ⟨?_, ?_⟩ <;> simp [analyse, hb, withLevels]
  · rw [analyse_ok t f hb hc hv]
    refine ⟨?_, ?_⟩
    · rw [analyseBody_error]
      simp [withLevels, analyseBody_overall_ne_nodata]
    · rw [analyseBody_error]
      simp [withLevels]

/-- Witness for the amended C2: the equivalence at a concrete well-formed
frame, and the indicator defaults at a concrete empty frame where the error
is actually set. -/
theorem analyse_error_iff_nodata_witness :
    ((analyse "T" frameFlat30).error.isSome = true ↔
      (analyse "T" frameFlat30).overall_signal = "NO DATA") ∧
    ((analyse "X" ⟨[], true, true⟩).rsi = none ∧
      (analyse "X" ⟨[], true, true⟩).macd_bullish = false ∧
      (analyse "X" ⟨[], true, true⟩).above_ema20 = false ∧
      (analyse "X" ⟨[], true, true⟩).above_ema50 = false ∧
      (analyse "X" ⟨[], true, true⟩).volume_spike = false ∧
      (analyse "X" ⟨[], true, true⟩).volume_ratio = none) :=
  ⟨(analyse_error_iff_nodata "T" frameFlat30 rfl rfl).1,
   (analyse_error_iff_nodata "X" ⟨[], true, true⟩ rfl rfl).2
     (by simp [analyse, withLevels])⟩

lemma specVotes_fullSig (sig0 : StockSignal) (bars : List Bar) :
    specVotes (fullSig sig0 bars) =
      votes (macdBull (closesOf bars)) (aboveEmaShort (closesOf bars))
        (aboveEmaLong (closesOf bars)) (volSpike (volsOf bars))
        (rsiField (closesOf bars)) := rfl

/-- C4: on the full-data path (≥30 bars, columns present) the overall signal
is the vote-count mapping applied to the signal's own indicator fields
(macd_bullish, above_ema20, above_ema50, volume_spike, rsi ∈ [50,70)), and
the emoji tag is a pure function of the overall signal. -/
theorem analyse_composite_score (t : String) (f : Frame)
    (hc : f.hasClose = true) (hv : f.hasVolume = true)
    (h30 : 30 ≤ f.bars.length) :
    (analyse t f).overall_signal = specScoreLabel (specVotes (analyse t f)) ∧
    (analyse t f).signal_emoji = specEmoji ((analyse t f).overall_signal) := by
  have hb : f.bars ≠ [] := by
    intro h
    rw [h] at h30
    simp at h30
  rw [analyse_ok t f hb hc hv, analyse_full _ _ h30]
  rw [specVotes_fullSig]
  simp only [fullSig]
  exact ⟨scoreOf_fst _, scoreOf_snd _⟩

/-- Witness for C4 at thirty identical bars (zero votes: CAUTION, 🔴). -/
theorem analyse_composite_score_witness :
    (analyse "T" frameFlat30).overall_signal =
      specScoreLabel (specVotes (analyse "T" frameFlat30)) ∧
    (analyse "T" frameFlat30).signal_emoji =
      specEmoji ((analyse "T" frameFlat30).overall_signal) :=
  analyse_composite_score "T" frameFlat30 rfl rfl (by decide)

/-- Counterexample for C5: a 2-bar series with closes 100, 98 has
`change_pct` exactly -2, which lies in the claim's "-2% to 0% → NEUTRAL"
band, yet the code's strict `change_pct > -2` test yields CAUTION. -/
theorem analyse_minus_two_pct_cex :
    (analyse "T" frameDown2).change_pct = some (-2) ∧
    ((-2 : ℚ) ≤ -2 ∧ (-2 : ℚ) ≤ 0) ∧
    (analyse "T" frameDown2).overall_signal = "CAUTION" ∧
    (analyse "T" frameDown2).overall_signal ≠ "NEUTRAL" := by
  have h2 : (analyse "T" frameDown2).overall_signal = "CAUTION" := by
    norm_num [analyse, withLevels, TRADE_LEVELS, analyseBody, limitedSig, changeOf,
      closesOf, frameDown2, flatBar, lastD, penult, pyRound, roundHalfEven,
      heuristicOf, List.getLastD]
  refine ⟨?_, ⟨by norm_num, by norm_num⟩, h2, by rw [h2]; decide⟩
  norm_num [analyse, withLevels, TRADE_LEVELS, analyseBody, limitedSig, changeOf,
    closesOf, frameDown2, flatBar, lastD, penult, pyRound, roundHalfEven, List.getLastD]

/-- C5 as amended: on the 1–29-bar path the signal comes from `change_pct`
alone — above 2% WATCH, in (0,2] NEUTRAL, in (-2,0] NEUTRAL, at or below
-2% CAUTION (the NEUTRAL band is open at exactly -2%), missing change
NEUTRAL — and no indicator field is populated. -/
theorem analyse_limited_heuristic (t : String) (f : Frame)
    (hc : f.hasClose = true) (hv : f.hasVolume = true)
    (h1 : 1 ≤ f.bars.length) (h30 : f.bars.length < 30) :
    ((analyse t f).change_pct = none →
      (analyse t f).overall_signal = "NEUTRAL") ∧
    (∀ c, (analyse t f).change_pct = some c →
      (2 < c → (analyse t f).overall_signal = "WATCH") ∧
      (0 < c → c ≤ 2 → (analyse t f).overall_signal = "NEUTRAL") ∧
      (-2 < c → c ≤ 0 → (analyse t f).overall_signal = "NEUTRAL") ∧
      (c ≤ -2 → (analyse t f).overall_signal = "CAUTION")) ∧
    (analyse t f).rsi = none ∧
    (analyse t f).macd_bullish = false ∧
    (analyse t f).above_ema20 = false ∧
    (analyse t f).above_ema50 = false ∧
    (analyse t f).volume_spike = false ∧
    (analyse t f).volume_ratio = none := by
  have hb : f.bars ≠ [] := by
    intro h
    rw [h] at h1
    simp at h1
  rw [analyse_ok t f hb hc hv, analyse_limited _ _ (by omega)]
  simp only [limitedSig]
  refine ⟨?_, ?_, rfl, rfl, rfl, rfl, rfl, rfl⟩
  · intro hch
    rw [hch]
    rfl
  · intro c hch
    rw [hch]
    refine ⟨?_, ?_, ?_, ?_⟩
    · intro h2
      simp [heuristicOf, h2]
    · intro h0 hle2
      have hn2 : ¬ (c > 2) := by linarith
      simp [heuristicOf, hn2, h0]
    · intro hm2 hle0
      have hn2 : ¬ (c > 2) := by linarith
      have hn0 : ¬ (c > 0) := by linarith
      simp [heuristicOf, hn2, hn0, hm2]
    · intro hle
      have hn2 : ¬ (c > 2) := by linarith
      have hn0 : ¬ (c > 0) := by linarith
      have hnm : ¬ (c > -2) := by linarith
      simp [heuristicOf, hn2, hn0, hnm]

/-- Witness for the amended C5 at the closes-[100, 98] frame: its change of
exactly -2% lands in the CAUTION band and no indicator is populated. -/
theorem analyse_limited_heuristic_witness :
    (analyse "T" frameDown2).overall_signal = "CAUTION" ∧
    (analyse "T" frameDown2).rsi = none ∧
    (analyse "T" frameDown2).volume_ratio = none := by
  have h := analyse_limited_heuristic "T" frameDown2 rfl rfl (by decide) (by decide)
  have hch : (analyse "T" frameDown2).change_pct = some (-2) := by
    norm_num [analyse, withLevels, TRADE_LEVELS, analyseBody, limitedSig, changeOf,
      closesOf, frameDown2, flatBar, lastD, penult, pyRound, roundHalfEven,
      List.getLastD]
  exact ⟨(h.2.1 (-2) hch).2.2.2 (by norm_num), h.2.2.1, h.2.2.2.2.2.2.2⟩

/-- C7: with at least 30 bars and a zero Wilder average loss at the last
bar, the RSI quotient is NaN (modelled: missing), so `analyse` stores no
RSI at all — it neither divides by zero (all operations here are total)
nor reports 100. -/
theorem analyse_zero_avg_loss_rsi_none (t : String) (f : Frame)
    (hc : f.hasClose = true) (hv : f.hasVolume = true)
    (h30 : 30 ≤ f.bars.length)
    (hl : avgLossLast (closesOf f.bars) = some 0) :
    (analyse t f).rsi = none := by
  have hb : f.bars ≠ [] := by
    intro h
    rw [h] at h30
    simp at h30
  rw [analyse_ok t f hb hc hv, analyse_full _ _ h30]
  simp only [fullSig, rsiField, rsiLast, hl]
  cases hg : avgGainLast (closesOf f.bars) <;> simp

/-- Witness for C7: thirty identical-price bars. -/
theorem analyse_zero_avg_loss_rsi_none_witness :
    (analyse "T" frameFlat30).rsi = none :=
  analyse_zero_avg_loss_rsi_none "T" frameFlat30 rfl rfl (by decide)
    (by norm_num [avgLossLast, ewmLast?, diffs, closesOf, frameFlat30, flatBar,
      List.replicate])

/-- Counterexample for C8: in a 30-bar frame whose last twenty volumes are
nineteen 3s and a final 1, the exact ratio is 10/29 but the stored
`volume_ratio` is the two-decimal rounding 0.34 — not the exact quotient. -/
theorem analyse_volume_ratio_rounded_cex :
    (analyse "T" frameVol).volume_ratio = some (17/50) ∧
    lastD (volsOf frameVol.bars) / meanLast20 (volsOf frameVol.bars) = 10/29 ∧
    ((17 : ℚ)/50) ≠ 10/29 := by
  refine ⟨?_, ?_, by norm_num⟩
  · norm_num [analyse, withLevels, TRADE_LEVELS, analyseBody, fullSig, volRatio,
      volsOf, frameVol, flatBar, List.replicate, meanLast20, lastK, lastD,
      List.getLastD, pyRound, roundHalfEven]
  · norm_num [volsOf, frameVol, flatBar, List.replicate, meanLast20, lastK, lastD,
      List.getLastD]

/-- C8 as amended: on the full-data path `volume_ratio` is None when the
trailing 20-bar mean volume is 0, and otherwise equals
`round(currentVol/avgVol, 2)` — the two-decimal rounding of the quotient,
not the exact quotient; `volume_spike` holds iff the (rounded) ratio is set
and at least the 1.5 multiplier. -/
theorem analyse_volume_fields (t : String) (f : Frame)
    (hc : f.hasClose = true) (hv : f.hasVolume = true)
    (h30 : 30 ≤ f.bars.length) :
    (meanLast20 (volsOf f.bars) = 0 → (analyse t f).volume_ratio = none) ∧
    (meanLast20 (volsOf f.bars) ≠ 0 →
      (analyse t f).volume_ratio =
        some (pyRound 2 (lastD (volsOf f.bars) / meanLast20 (volsOf f.bars)))) ∧
    ((analyse t f).volume_spike = true ↔
      ∃ r, (analyse t f).volume_ratio = some r ∧ VOLUME_SPIKE_MULTIPLIER ≤ r) := by
  have hb : f.bars ≠ [] := by
    intro h
    rw [h] at h30
    simp at h30
  have h20 : 20 ≤ (volsOf f.bars).length := by
    simp only [volsOf, List.length_map]
    omega
  rw [analyse_ok t f hb hc hv, analyse_full _ _ h30]
  simp only [fullSig]
  refine ⟨?_, ?_, ?_⟩
  · intro hz
    simp [volRatio, h20, hz]
  · intro hz
    simp [volRatio, h20, hz]
  · simp only [volSpike, if_pos h20]
    cases hr : volRatio (volsOf f.bars) with
    | none => simp [pyTruthy]
    | some r =>
      simp only [pyTruthy, Option.getD_some, Bool.and_eq_true, decide_eq_true_eq,
        Option.some.injEq, VOLUME_SPIKE_MULTIPLIER]
      constructor
      · rintro ⟨_, hge⟩
        exact ⟨r, rfl, hge⟩
      · rintro ⟨r', hr', hge⟩
        subst hr'
        refine ⟨?_, hge⟩
        intro h0
        rw [h0] at hge
        norm_num at hge

/-- Witness for the amended C8 at the 10/29-ratio frame. -/
theorem analyse_volume_fields_witness :
    (analyse "T" frameVol).volume_ratio =
      some (pyRound 2 (lastD (volsOf frameVol.bars) / meanLast20 (volsOf frameVol.bars))) :=
  (analyse_volume_fields "T" frameVol rfl rfl (by decide)).2.1
    (by norm_num [meanLast20, lastK, volsOf, frameVol, flatBar, List.replicate])

/-- Counterexample for C9: thirty strictly decreasing closes make the
computed RSI exactly 0 — below 40 — yet `if sig.rsi and ...` treats the
falsy 0.0 as unset and appends no oversold note. -/
theorem analyse_rsi_zero_no_note_cex :
    (analyse "T" frameDrop).rsi = some 0 ∧
    ((0 : ℚ) < 40) ∧
    oversoldNote ∉ (analyse "T" frameDrop).notes := by
  have hr : (analyse "T" frameDrop).rsi = some 0 := by
    norm_num [analyse, withLevels, TRADE_LEVELS, analyseBody, fullSig, rsiField,
      rsiLast, avgGainLast, avgLossLast, ewmLast?, diffs, closesOf, frameDrop,
      flatBar, pyRound, roundHalfEven]
  refine ⟨hr, by norm_num, ?_⟩
  norm_num [analyse, withLevels, TRADE_LEVELS, analyseBody, fullSig, notesFor,
    pyTruthy, rsiField, rsiLast, avgGainLast, avgLossLast, ewmLast?, diffs,
    closesOf, volsOf, frameDrop, flatBar, pyRound, roundHalfEven, volSpike,
    volRatio, meanLast20, lastK, lastD, List.getLastD, aboveEmaShort,
    aboveEmaLong, emaLast, EMA_SHORT, EMA_LONG, VOLUME_SPIKE_MULTIPLIER,
    oversoldNote, overboughtNote, volumeSpikeNote, reclaimNote]

/-- C9 as amended: the advisory notes are appended independently of the
composite signal, with the truthiness caveat — the oversold note appears
whenever the stored rsi is set, nonzero and below 40 (an rsi of exactly 0 is
falsy and appends nothing), the overbought note whenever rsi is set and
above 70, a note containing the ratio whenever volume_spike holds, and the
long-EMA-reclaim note whenever above_ema20 holds and above_ema50 does not. -/
theorem analyse_notes_spec (t : String) (f : Frame) :
    (∀ r, (analyse t f).rsi = some r → r ≠ 0 → r < 40 →
      oversoldNote ∈ (analyse t f).notes) ∧
    (∀ r, (analyse t f).rsi = some r → 70 < r →
      overboughtNote ∈ (analyse t f).notes) ∧
    ((analyse t f).volume_spike = true →
      volumeSpikeNote (analyse t f).volume_ratio ∈ (analyse t f).notes) ∧
    ((analyse t f).above_ema20 = true → (analyse t f).above_ema50 = false →
      reclaimNote ∈ (analyse t f).notes) := by
  by_cases hb : f.bars = []
  · refine ⟨?_, ?_, ?_, ?_⟩ <;> simp [analyse, hb, withLevels]
  · cases hcb : f.hasClose with
    | false =>
      refine ⟨?_, ?_, ?_, ?_⟩ <;>
        simp [analyse, List.isEmpty_iff, hb, hcb, withLevels]
    | true =>
      cases hvb : f.hasVolume with
      | false =>
        refine ⟨?_, ?_, ?_, ?_⟩ <;>
          simp [analyse, List.isEmpty_iff, hb, hcb, hvb, withLevels]
      | true =>
        rw [analyse_ok t f hb hcb hvb]
        by_cases h30 : 30 ≤ f.bars.length
        · rw [analyse_full _ _ h30]
          simp only [fullSig]
          refine ⟨?_, ?_, ?_, ?_⟩
          · intro r hr hr0 hlt
            rw [hr]
            simp only [withLevels, List.nil_append]
            exact oversold_mem_notesFor r hr0 hlt _ _ _ _
          · intro r hr hgt
            rw [hr]
            simp only [withLevels, List.nil_append]
            exact overbought_mem_notesFor r hgt _ _ _ _
          · intro hsp
            rw [hsp]
            simp only [withLevels, List.nil_append]
            exact spikeNote_mem_notesFor _ _ _ _
          · intro h20 h50
            rw [h20, h50]
            simp only [withLevels, List.nil_append]
            exact reclaim_mem_notesFor _ _ _
        · rw [analyse_limited _ _ h30]
          simp only [limitedSig]
          refine ⟨?_, ?_, ?_, ?_⟩ <;> simp [withLevels]

/-- Witness for the amended C9: a bounce frame whose RSI is 7.1 gets the
oversold note; a spike frame gets the volume note. -/
theorem analyse_notes_spec_witness :
    oversoldNote ∈ (analyse "T" frameBounce).notes ∧
    volumeSpikeNote (analyse "T" frameSpike).volume_ratio ∈
      (analyse "T" frameSpike).notes :=
  ⟨(analyse_notes_spec "T" frameBounce).1 (71/10)
      (by norm_num [analyse, withLevels, TRADE_LEVELS, analyseBody, fullSig,
        rsiField, rsiLast, avgGainLast, avgLossLast, ewmLast?, diffs, closesOf,
        frameBounce, flatBar, pyRound, roundHalfEven])
      (by norm_num) (by norm_num),
   (analyse_notes_spec "T" frameSpike).2.2.1
      (by norm_num [analyse, withLevels, TRADE_LEVELS, analyseBody, fullSig,
        volSpike, volRatio, pyTruthy, meanLast20, lastK, lastD, List.getLastD,
        volsOf, frameSpike, flatBar, List.replicate, pyRound, roundHalfEven,
        VOLUME_SPIKE_MULTIPLIER])⟩
